import Mathlib

/-!
Verification development for the trader-alerts dashboard core
(src/trader_alerts): observation data model, the deduplicating
observation store, the alert rule engine, the top/bottom signal engine,
provider fetch guards, unit conversion, and fetch-all orchestration.

Modelling conventions:
- Python floats are modelled as exact rationals.
- Calendar dates are modelled as proleptic ordinals (as in
  datetime.date.toordinal), so date arithmetic is integer arithmetic and
  ISO-string comparison in SQL corresponds to integer comparison.
- The SQLite observations table (storage.py, init_db) is modelled as a
  list of stored rows; the PRIMARY KEY (indicator_id, as_of) constraint
  is the KeyUnique invariant below. The INSERT ... ON CONFLICT DO UPDATE
  statement of upsert_observations is modelled row by row by upsertRow.
- Display-string formatting of numbers abbreviates Python percent or
  fixed-point formatting by exact rational printing; no claim depends on
  the text of a display string.
-/

namespace TraderAlerts

/-- constants.py: the fixed enumerated indicator set. -/
inductive IndicatorId
  | BOFA_BULL_BEAR
  | US_HIGH_YIELD_SPREAD
  | SP500_PE
  | NASDAQ100_PE
  | CNN_FEAR_GREED_INDEX
  | CNN_PUT_CALL_OPTIONS
  | SP500_RSI
  | NASDAQ100_ABOVE_20D_MA
  | VIX
  deriving DecidableEq

/-- A value in an observation meta dict (string, number, or None). -/
inductive MetaVal
  | str (s : String)
  | num (q : ℚ)
  | null
  deriving DecidableEq

/-- models.py: Observation — one dated, sourced numeric reading. -/
structure Observation where
  indicator_id : IndicatorId
  as_of : ℤ
  value : ℚ
  unit : String
  source : String
  meta : Option (List (String × MetaVal)) := none
  deriving DecidableEq

/-- models.py: AlertLevel. -/
inductive AlertLevel
  | BULL
  | BEAR
  | NEUTRAL
  deriving DecidableEq

/-- A value in an alert evidence dict. -/
inductive EvidenceVal
  | num (q : ℚ)
  | str (s : String)
  | onum (q : Option ℚ)
  | omv (v : MetaVal)
  deriving DecidableEq

/-- models.py: Alert — derived bull/bear/neutral classification. -/
structure Alert where
  indicator_id : IndicatorId
  level : AlertLevel
  title : String
  message : String
  evidence : Option (List (String × EvidenceVal)) := none
  deriving DecidableEq

/-- dict.get on an optional meta dict ((latest.meta or \x7b\x7d).get(k)). -/
def metaGet (m : Option (List (String × MetaVal))) (k : String) : MetaVal :=
  match m with
  | none => .null
  | some l =>
    match l.find? (fun p => p.1 == k) with
    | none => .null
    | some p => p.2

/-! ## Observation store (storage.py)

A stored row is the observation columns plus the inserted_at timestamp
(meta_json round-trips through json.dumps and json.loads, so it is kept
as the meta value itself). -/

structure StoredRow where
  obs : Observation
  inserted_at : ℤ
  deriving DecidableEq

/-- The PRIMARY KEY of the observations table. -/
def obsKey (o : Observation) : IndicatorId × ℤ := (o.indicator_id, o.as_of)

def rowKey (r : StoredRow) : IndicatorId × ℤ := obsKey r.obs

abbrev Table := List StoredRow

/-- The PRIMARY KEY (indicator_id, as_of) constraint from init_db. -/
def KeyUnique (t : Table) : Prop :=
  t.Pairwise (fun a b => rowKey a ≠ rowKey b)

/-- One row of the INSERT ... ON CONFLICT(indicator_id, as_of) DO UPDATE
statement of upsert_observations: on a key conflict every column of the
conflicting row is overwritten by the excluded (new) row, otherwise the
new row is appended. -/
def upsertRow (t : Table) (r : StoredRow) : Table :=
  if t.any (fun x => decide (rowKey x = rowKey r)) then
    t.map (fun x => if rowKey x = rowKey r then r else x)
  else
    t ++ [r]

/-- storage.py upsert_observations: executemany over the batch in order,
stamping every written row with the same ingestion timestamp now. -/
def upsert_observations (t : Table) (observations : List Observation) (now : ℤ) : Table :=
  observations.foldl (fun acc o => upsertRow acc ⟨o, now⟩) t

/-- The observation columns of the table (the SELECTed columns of the
queries below never include inserted_at). -/
def obsOf (t : Table) : List Observation := t.map (fun r => r.obs)

/-- Fold computing the row with maximal as_of (ORDER BY as_of DESC LIMIT 1). -/
def maxByAsOf (l : List Observation) : Option Observation :=
  l.foldl
    (fun acc o =>
      match acc with
      | none => some o
      | some b => if b.as_of < o.as_of then some o else some b)
    none

/-- storage.py latest_observation on the observation columns. -/
def latestObs (l : List Observation) (ind : IndicatorId) : Option Observation :=
  maxByAsOf (l.filter (fun o => decide (o.indicator_id = ind)))

def latest_observation (t : Table) (ind : IndicatorId) : Option Observation :=
  latestObs (obsOf t) ind

/-- storage.py recent_observations on the observation columns:
WHERE indicator_id = ind AND as_of >= today - days ORDER BY as_of ASC. -/
def recentObs (l : List Observation) (ind : IndicatorId) (today days : ℤ) : List Observation :=
  List.insertionSort (fun a b => a.as_of ≤ b.as_of)
    (l.filter (fun o => decide (o.indicator_id = ind) && decide (today - days ≤ o.as_of)))

def recent_observations (t : Table) (ind : IndicatorId) (today days : ℤ) : List Observation :=
  recentObs (obsOf t) ind today days

/-- The rows of a table holding a given primary key. -/
def rowsWithKey (t : Table) (k : IndicatorId × ℤ) : Table :=
  t.filter (fun x => decide (rowKey x = k))

/-! ## Rule engine (rules.py) -/

/-- rules.py RuleContext. -/
structure RuleContext where
  latest : Option Observation
  history_30d : List Observation
  history_365d : List Observation

/-- The loop of rules.py value_on_or_before: scan the history in order,
remember the last element dated on or before the target, and break at
the first element dated after the target. -/
def valueOnOrBeforeGo (target : ℤ) : Option Observation → List Observation → Option Observation
  | best, [] => best
  | best, o :: rest =>
    if o.as_of ≤ target then valueOnOrBeforeGo target (some o) rest else best

/-- rules.py value_on_or_before (history is expected ascending by as_of). -/
def value_on_or_before (history : List Observation) (target : ℤ) : Option Observation :=
  valueOnOrBeforeGo target none history

/-- rules.py delta: look back lookback_days calendar days from the
latest observation date and subtract the found value from the latest. -/
def delta (history : List Observation) (latest : Observation) (lookback_days : ℤ) : Option ℚ :=
  match value_on_or_before history (latest.as_of - lookback_days) with
  | none => none
  | some past => some (latest.value - past.value)

/-- rules.py rule_bofa_bull_bear (AAII bull-bear spread, percent). -/
def rule_bofa_bull_bear (ctx : RuleContext) : Option Alert :=
  match ctx.latest with
  | none => none
  | some latest =>
    let v := latest.value
    if v ≤ -20 then
      some { indicator_id := .BOFA_BULL_BEAR, level := .BULL,
             title := "AAII Bull-Bear Spread 极度悲观（反向买入）",
             message := "当 Bull-Bear Spread 很低（甚至为负）通常代表恐慌情绪更强，可能更接近反弹窗口。",
             evidence := some [("value", .num v), ("unit", .str latest.unit)] }
    else if 20 ≤ v then
      some { indicator_id := .BOFA_BULL_BEAR, level := .BEAR,
             title := "AAII Bull-Bear Spread 极度乐观（过热风险）",
             message := "当 Bull-Bear Spread 很高通常代表情绪偏亢奋，回撤风险上升。",
             evidence := some [("value", .num v), ("unit", .str latest.unit)] }
    else
      some { indicator_id := .BOFA_BULL_BEAR, level := .NEUTRAL,
             title := "AAII Bull-Bear Spread 中性",
             message := "未触发极值阈值。",
             evidence := some [("value", .num v), ("unit", .str latest.unit)] }

/-- The d30 is not None and d30 >= x test of rule_hy_spread. -/
def deltaGE (d : Option ℚ) (x : ℚ) : Bool :=
  match d with
  | none => false
  | some q => decide (x ≤ q)

/-- The d30 is not None and d30 <= x test of rule_hy_spread. -/
def deltaLE (d : Option ℚ) (x : ℚ) : Bool :=
  match d with
  | none => false
  | some q => decide (q ≤ x)

/-- rules.py rule_hy_spread (US high-yield OAS, bp); the BEAR branch is
tested before the BULL branch. -/
def rule_hy_spread (ctx : RuleContext) : Option Alert :=
  match ctx.latest with
  | none => none
  | some latest =>
    let v := latest.value
    let d30 := delta ctx.history_365d latest 30
    if decide (500 ≤ v) || deltaGE d30 100 then
      some { indicator_id := .US_HIGH_YIELD_SPREAD, level := .BEAR,
             title := "高收益债利差走阔（信用压力）",
             message := "利差走阔通常代表风险补偿上升与信用担忧加剧，往往对股市不利。",
             evidence := some [("value", .num v), ("unit", .str latest.unit), ("delta_1m", .onum d30)] }
    else if decide (v ≤ 300) || deltaLE d30 (-100) then
      some { indicator_id := .US_HIGH_YIELD_SPREAD, level := .BULL,
             title := "高收益债利差收窄（信用改善）",
             message := "利差收窄通常代表风险偏好修复，对风险资产更友好。",
             evidence := some [("value", .num v), ("unit", .str latest.unit), ("delta_1m", .onum d30)] }
    else
      some { indicator_id := .US_HIGH_YIELD_SPREAD, level := .NEUTRAL,
             title := "高收益债利差中性",
             message := "未触发信用压力/修复阈值。",
             evidence := some [("value", .num v), ("unit", .str latest.unit), ("delta_1m", .onum d30)] }

/-- rules.py rule_sp500_pe_ratio (the BEAR branch is tested first). -/
def rule_sp500_pe (ctx : RuleContext) : Option Alert :=
  match ctx.latest with
  | none => none
  | some latest =>
    let v := latest.value
    if 25 ≤ v then
      some { indicator_id := .SP500_PE, level := .BEAR,
             title := "S&P 500 PE 偏高（估值过热风险）",
             message := "PE 仅是估值维度之一；高估值会放大回撤敏感性，需结合利率/盈利周期判断。",
             evidence := some [("value", .num v), ("unit", .str latest.unit)] }
    else if v ≤ 15 then
      some { indicator_id := .SP500_PE, level := .BULL,
             title := "S&P 500 PE 偏低（估值更友好）",
             message := "低估值通常代表更高的安全边际，但仍需结合盈利下修风险判断。",
             evidence := some [("value", .num v), ("unit", .str latest.unit)] }
    else
      some { indicator_id := .SP500_PE, level := .NEUTRAL,
             title := "S&P 500 PE 中性",
             message := "未触发估值阈值。",
             evidence := some [("value", .num v), ("unit", .str latest.unit)] }

/-- rules.py rule_cnn_fear_greed (0-100 index; BULL branch first). -/
def rule_cnn_fear_greed (ctx : RuleContext) : Option Alert :=
  match ctx.latest with
  | none => none
  | some latest =>
    let v := latest.value
    let rating := metaGet latest.meta "rating"
    if v ≤ 25 then
      some { indicator_id := .CNN_FEAR_GREED_INDEX, level := .BULL,
             title := "CNN Fear & Greed：极度恐惧（反向买入）",
             message := "情绪极度恐惧时更容易接近阶段性底部/反弹窗口（建议结合信用利差与趋势确认）。",
             evidence := some [("value", .num v), ("unit", .str latest.unit), ("rating", .omv rating)] }
    else if 75 ≤ v then
      some { indicator_id := .CNN_FEAR_GREED_INDEX, level := .BEAR,
             title := "CNN Fear & Greed：极度贪婪（过热风险）",
             message := "情绪极度贪婪往往伴随拥挤交易，回撤风险上升。",
             evidence := some [("value", .num v), ("unit", .str latest.unit), ("rating", .omv rating)] }
    else
      some { indicator_id := .CNN_FEAR_GREED_INDEX, level := .NEUTRAL,
             title := "CNN Fear & Greed：中性区间",
             message := "未触发极端阈值。",
             evidence := some [("value", .num v), ("unit", .str latest.unit), ("rating", .omv rating)] }

/-! ## Signal engine (signals.py) -/

/-- signals.py Signal. -/
structure Signal where
  indicator_id : IndicatorId
  top : Bool
  bottom : Bool
  title : String
  detail : String
  meta : Option (List (String × MetaVal)) := none
  deriving DecidableEq

/-- Exact rational print used in place of Python fixed-point number
formatting inside display strings (no claim depends on this text). -/
def fmtQ (q : ℚ) : String := toString q.num ++ "/" ++ toString q.den

/-- signals.py block 1: bull-bear spread (top at >= 20, bottom at <= -20). -/
def signal_bull_bear (latest : IndicatorId → Option Observation) : List Signal :=
  match latest .BOFA_BULL_BEAR with
  | none => []
  | some o =>
    let v := o.value
    [{ indicator_id := .BOFA_BULL_BEAR, top := decide (20 ≤ v), bottom := decide (v ≤ -20),
       title := "Investor Sentiment Bull-Bear Spread",
       detail := fmtQ v ++ "% (>=+20 top sentiment; <=-20 bottom sentiment)" }]

/-- signals.py block 2: CNN Fear & Greed (top at >= 75, bottom at <= 25). -/
def signal_fear_greed (latest : IndicatorId → Option Observation) : List Signal :=
  match latest .CNN_FEAR_GREED_INDEX with
  | none => []
  | some o =>
    let v := o.value
    [{ indicator_id := .CNN_FEAR_GREED_INDEX, top := decide (75 ≤ v), bottom := decide (v ≤ 25),
       title := "Fear & Greed Index",
       detail := fmtQ v ++ " (>=75 extreme greed; <=25 extreme fear)",
       meta := some [("rating", metaGet o.meta "rating")] }]

/-- signals.py block 3: put/call ratio (bottom at >= 0.80, top at < 0.6). -/
def signal_put_call (latest : IndicatorId → Option Observation) : List Signal :=
  match latest .CNN_PUT_CALL_OPTIONS with
  | none => []
  | some o =>
    let v := o.value
    [{ indicator_id := .CNN_PUT_CALL_OPTIONS, top := decide (v < 6/10), bottom := decide (8/10 ≤ v),
       title := "Put/Call Ratio (5-Day Average)",
       detail := fmtQ v ++ " (<0.60 biased greed/arrogance; >=0.80 biased fear/defensive)",
       meta := some [("rating", metaGet o.meta "rating")] }]

/-- signals.py block 4: VIX (top at < 14, bottom at > 25). -/
def signal_vix (latest : IndicatorId → Option Observation) : List Signal :=
  match latest .VIX with
  | none => []
  | some o =>
    let v := o.value
    [{ indicator_id := .VIX, top := decide (v < 14), bottom := decide (25 < v),
       title := "S&P 500 Volatility Index",
       detail := fmtQ v ++ " (<14 top; >25 bottom)" }]

/-- signals.py block 5: S&P 500 RSI (top at >= 70, bottom at <= 30). -/
def signal_rsi (latest : IndicatorId → Option Observation) : List Signal :=
  match latest .SP500_RSI with
  | none => []
  | some o =>
    let v := o.value
    [{ indicator_id := .SP500_RSI, top := decide (70 ≤ v), bottom := decide (v ≤ 30),
       title := "S&P 500 Relative Strength Index",
       detail := fmtQ v ++ " (>70 overbought; <30 oversold)" }]

/-- signals.py block 6: S&P 500 P/E — fixed thresholds (top at >= 32,
bottom at <= 22) extended by the optional historical percentile
(percentile >= 0.9 alone is top, percentile <= 0.1 alone is bottom). -/
def signal_sp500_pe (latest : IndicatorId → Option Observation) (pe_percentile : Option ℚ) :
    List Signal :=
  match latest .SP500_PE with
  | none => []
  | some o =>
    let v := o.value
    let top := decide (32 ≤ v) ||
      (match pe_percentile with | none => false | some p => decide (9/10 ≤ p))
    let bottom := decide (v ≤ 22) ||
      (match pe_percentile with | none => false | some p => decide (p ≤ 1/10))
    let pct_str :=
      match pe_percentile with
      | none => ""
      | some p => ", historical percentile " ++ fmtQ p
    [{ indicator_id := .SP500_PE, top := top, bottom := bottom,
       title := "S&P 500 Price-to-Earnings Ratio",
       detail := fmtQ v ++ "x (>=32 top valuation; <=22 bottom valuation" ++ pct_str ++ ")" }]

/-- signals.py block 7: Nasdaq 100 P/E (top at > 35, bottom at < 28). -/
def signal_nasdaq_pe (latest : IndicatorId → Option Observation) : List Signal :=
  match latest .NASDAQ100_PE with
  | none => []
  | some o =>
    let v := o.value
    [{ indicator_id := .NASDAQ100_PE, top := decide (35 < v), bottom := decide (v < 28),
       title := "Nasdaq 100 Price-to-Earnings Ratio",
       detail := fmtQ v ++ "x (>35 top valuation; <28 bottom valuation)" }]

/-- signals.py block 8: breadth, % above 20-day MA (top > 80, bottom < 20). -/
def signal_breadth (latest : IndicatorId → Option Observation) : List Signal :=
  match latest .NASDAQ100_ABOVE_20D_MA with
  | none => []
  | some o =>
    let v := o.value
    [{ indicator_id := .NASDAQ100_ABOVE_20D_MA, top := decide (80 < v), bottom := decide (v < 20),
       title := "Nasdaq 100 Stocks Above 20-Day Moving Average (%)",
       detail := fmtQ v ++ "% (>80 top; <20 bottom)" }]

/-- signals.py block 9: HY OAS — the unit is normalized to bp first
(percent unit, or a magnitude below 30, means percent and is multiplied
by 100); top at v_bp < 280, bottom at v_bp > 450. -/
def signal_hy (latest : IndicatorId → Option Observation) : List Signal :=
  match latest .US_HIGH_YIELD_SPREAD with
  | none => []
  | some o =>
    let v := o.value
    let v_bp := if o.unit = "percent" ∨ v < 30 then v * 100 else v
    [{ indicator_id := .US_HIGH_YIELD_SPREAD, top := decide (v_bp < 280), bottom := decide (450 < v_bp),
       title := "US High Yield Option-Adjusted Spread",
       detail := "Current " ++ fmtQ (v_bp / 100) ++ "% (<2.8% top risk; >4.5% bottom panic)" }]

/-- signals.py compute_signals: the nine indicator blocks, appended in
source order to the output list. -/
def compute_signals (latest : IndicatorId → Option Observation) (pe_percentile : Option ℚ) :
    List Signal :=
  signal_bull_bear latest ++ signal_fear_greed latest ++ signal_put_call latest ++
    signal_vix latest ++ signal_rsi latest ++ signal_sp500_pe latest pe_percentile ++
    signal_nasdaq_pe latest ++ signal_breadth latest ++ signal_hy latest

/-! ## Providers

Network I/O is modelled by passing the observation the network layer
would produce (netObs) as an argument; the Bool component of a fetch
result records whether the network fetch ran. Parsing from raw HTML is
modelled from the point where a numeric candidate has been extracted,
which is where the cited plausibility checks live. -/

def tradingEconomicsURL : String :=
  "https://tradingeconomics.com/united-states/bofa-merrill-lynch-us-high-yield-option-adjusted-spread-fed-data.html"

def multplURL : String := "https://www.multpl.com/s-p-500-pe-ratio"

/-- tradingeconomics.py _fetch_hy_oas_percent: the observation built from
a parsed percent value and derived as-of date (value kept in percent). -/
def te_observation (as_of : ℤ) (value : ℚ) : Observation :=
  { indicator_id := .US_HIGH_YIELD_SPREAD, as_of := as_of, value := value,
    unit := "percent", source := "TradingEconomics",
    meta := some [("url", .str tradingEconomicsURL), ("raw_unit", .str "%")] }

/-- tradingeconomics.py TradingEconomicsProvider.fetch: if the request
list is nonempty and does not contain the high-yield-spread indicator,
return empty without network I/O; otherwise perform the network fetch. -/
def te_fetch (indicator_ids : List IndicatorId) (netObs : Observation) :
    Bool × List Observation :=
  if indicator_ids ≠ [] ∧ .US_HIGH_YIELD_SPREAD ∉ indicator_ids then (false, [])
  else (true, [netObs])

/-- multpl.py _fetch_sp500_pe_ratio: the observation built from the
parsed P/E value — no plausibility range check is applied to it. -/
def multpl_sp500_pe_observation (today : ℤ) (value : ℚ) (reported : Option String) :
    Observation :=
  { indicator_id := .SP500_PE, as_of := today, value := value, unit := "x",
    source := "multpl.com",
    meta := some [("url", .str multplURL),
      ("reported", match reported with | none => .null | some s => .str s)] }

/-- multpl.py MultplProvider.fetch: same guard shape as te_fetch for the
S&P 500 P/E indicator. -/
def multpl_fetch (indicator_ids : List IndicatorId) (netObs : Observation) :
    Bool × List Observation :=
  if indicator_ids ≠ [] ∧ .SP500_PE ∉ indicator_ids then (false, [])
  else (true, [netObs])

/-- fred.py _fetch_hy_oas, TradingEconomics path (lines 47-56): the raw
percent reading of the TradingEconomics observation is converted to
basis points (value times 100, unit bp). -/
def fred_obs_from_te (te : Observation) : Observation :=
  { indicator_id := .US_HIGH_YIELD_SPREAD, as_of := te.as_of,
    value := te.value * 100, unit := "bp", source := "TradingEconomics",
    meta := some [("url", metaGet te.meta "url"), ("raw_percent", .num te.value)] }

/-- fred.py _fetch_hy_oas, FRED API path (lines 75-88): the latest
non-empty percent value of the series is converted to basis points. -/
def fred_obs_from_api (as_of : ℤ) (pct : ℚ) : Observation :=
  { indicator_id := .US_HIGH_YIELD_SPREAD, as_of := as_of,
    value := pct * 100, unit := "bp", source := "FRED_API:BAMLH0A0HYM2",
    meta := some [("fred_series_id", .str "BAMLH0A0HYM2"), ("raw_percent", .num pct)] }

/-- fred.py _fetch_hy_oas, public data-file path (lines 149-159): the
latest parsed percent value is converted to basis points. -/
def fred_obs_from_txt (as_of : ℤ) (pct : ℚ) : Observation :=
  { indicator_id := .US_HIGH_YIELD_SPREAD, as_of := as_of,
    value := pct * 100, unit := "bp", source := "FRED_TXT:BAMLH0A0HYM2",
    meta := some [("fred_series_id", .str "BAMLH0A0HYM2"), ("raw_percent", .num pct)] }

/-- sp500_rsi.py _parse_rsi_from_html: each regex pattern either misses
(none) or extracts a numeric candidate (some v); a candidate is accepted
only when 0 <= v <= 100, otherwise the next pattern is tried. -/
def parse_rsi_accept : List (Option ℚ) → Option ℚ
  | [] => none
  | none :: rest => parse_rsi_accept rest
  | some v :: rest => if 0 ≤ v ∧ v ≤ 100 then some v else parse_rsi_accept rest

/-- nasdaq_pe.py is_reasonable_pe / _extract_pe_from_html_row gate: a
parsed P/E candidate is accepted only when 5 <= v <= 200. -/
def nasdaq_pe_gate (v : ℚ) : Option ℚ :=
  if 5 ≤ v ∧ v ≤ 200 then some v else none

/-! ## Orchestration (cli.py _fetch_all_into_db)

One pass over the provider sequence: each provider run either succeeds
with a written-record count or raises an error message; an error is
reported (console print, modelled by the message list) and the loop
continues with the next provider. -/

def fetch_all_step (acc : ℕ × List String) (pr : String × Except String ℕ) :
    ℕ × List String :=
  match pr.2 with
  | .ok n => (acc.1 + n, acc.2)
  | .error e => (acc.1, acc.2 ++ ["Skipping " ++ pr.1 ++ ": " ++ e])

def fetch_all_into_db (outcomes : List (String × Except String ℕ)) : ℕ × List String :=
  outcomes.foldl fetch_all_step (0, [])

/-! ## Concrete test fixtures -/

/-- A synthetic latest observation with a given indicator and value. -/
def obsWith (ind : IndicatorId) (v : ℚ) : Observation :=
  { indicator_id := ind, as_of := 0, value := v, unit := "", source := "t" }

/-- Latest high-yield observation at 400 bp on day 100 (neutral level). -/
def c2Lat : Observation :=
  { indicator_id := .US_HIGH_YIELD_SPREAD, as_of := 100, value := 400, unit := "bp", source := "t" }

/-- History with one observation at 280 bp exactly 30 days earlier. -/
def c2Hist : List Observation :=
  [{ indicator_id := .US_HIGH_YIELD_SPREAD, as_of := 70, value := 280, unit := "bp", source := "t" }]

/-- A high-yield observation keyed (US_HIGH_YIELD_SPREAD, day 0), value 1. -/
def c1O : Observation :=
  { indicator_id := .US_HIGH_YIELD_SPREAD, as_of := 0, value := 1, unit := "bp", source := "a" }

/-- Same key as c1O but a different value and source. -/
def c1O2 : Observation :=
  { indicator_id := .US_HIGH_YIELD_SPREAD, as_of := 0, value := 2, unit := "bp", source := "b" }

/-- A stored row dated day 1 (one day after a today of day 0). -/
def c5Row : StoredRow :=
  ⟨{ indicator_id := .US_HIGH_YIELD_SPREAD, as_of := 1, value := 400, unit := "bp", source := "t" }, 0⟩

/-- A latest-map with only the S&P 500 P/E present (value 20). -/
def c6Latest : IndicatorId → Option Observation := fun i =>
  match i with
  | .SP500_PE => some (obsWith .SP500_PE 20)
  | _ => none

/-- A latest-map with only the VIX present (value 10). -/
def c6VLatest : IndicatorId → Option Observation := fun i =>
  match i with
  | .VIX => some (obsWith .VIX 10)
  | _ => none

/-- A default signal used by list indexing in closed statements. -/
def sigDefault : Signal :=
  { indicator_id := .VIX, top := false, bottom := false, title := "", detail := "" }

/-- A network observation for the provider fetch guards (2.83 percent). -/
def c8NetObs : Observation := te_observation 0 (283/100)

instance : IsTotal Observation (fun a b => a.as_of ≤ b.as_of) :=
  ⟨fun a b => le_total a.as_of b.as_of⟩

instance : IsTrans Observation (fun a b => a.as_of ≤ b.as_of) :=
  ⟨fun _ _ _ h1 h2 => le_trans h1 h2⟩

/-! # Theorems -/

/-- Auxiliary: getLast? of a cons, expressed through the tail. -/
lemma getLast?_cons_eq {α : Type} (a : α) (l : List α) :
    (a :: l).getLast? = (l.getLast?).elim (some a) some := by
  cases l with
  | nil => rfl
  | cons b t =>
    rw [List.getLast?_cons_cons]
    cases h : (b :: t).getLast? with
    | none => simp [List.getLast?_eq_none_iff] at h
    | some x => rfl

/-- C3: for every indicator with a registered threshold rule, evaluating
a latest observation returns the documented level with inclusive
boundaries: bull-bear spread value <= -20 is BULL, >= +20 is BEAR,
strictly between is NEUTRAL (so exactly -20 is BULL, exactly +20 is
BEAR, -19.99 and +19.99 are NEUTRAL); CNN Fear & Greed <= 25 is BULL
and >= 75 is BEAR; S&P 500 P/E >= 25 is BEAR and <= 15 is BULL; else
NEUTRAL. -/
theorem threshold_rules_boundary_levels :
    (∀ (lat : Observation) (h30 h365 : List Observation),
      ∃ a, rule_bofa_bull_bear ⟨some lat, h30, h365⟩ = some a ∧
        a.indicator_id = .BOFA_BULL_BEAR ∧
        a.level = (if lat.value ≤ -20 then .BULL
          else if 20 ≤ lat.value then .BEAR else .NEUTRAL)) ∧
    (∀ (lat : Observation) (h30 h365 : List Observation),
      ∃ a, rule_cnn_fear_greed ⟨some lat, h30, h365⟩ = some a ∧
        a.indicator_id = .CNN_FEAR_GREED_INDEX ∧
        a.level = (if lat.value ≤ 25 then .BULL
          else if 75 ≤ lat.value then .BEAR else .NEUTRAL)) ∧
    (∀ (lat : Observation) (h30 h365 : List Observation),
      ∃ a, rule_sp500_pe ⟨some lat, h30, h365⟩ = some a ∧
        a.indicator_id = .SP500_PE ∧
        a.level = (if 25 ≤ lat.value then .BEAR
          else if lat.value ≤ 15 then .BULL else .NEUTRAL)) ∧
    ((rule_bofa_bull_bear ⟨some (obsWith .BOFA_BULL_BEAR (-20)), [], []⟩).map (·.level)
        = some .BULL ∧
      (rule_bofa_bull_bear ⟨some (obsWith .BOFA_BULL_BEAR (-1999/100)), [], []⟩).map (·.level)
        = some .NEUTRAL ∧
      (rule_bofa_bull_bear ⟨some (obsWith .BOFA_BULL_BEAR 20), [], []⟩).map (·.level)
        = some .BEAR ∧
      (rule_bofa_bull_bear ⟨some (obsWith .BOFA_BULL_BEAR (1999/100)), [], []⟩).map (·.level)
        = some .NEUTRAL) ∧
    ((rule_cnn_fear_greed ⟨some (obsWith .CNN_FEAR_GREED_INDEX 25), [], []⟩).map (·.level)
        = some .BULL ∧
      (rule_cnn_fear_greed ⟨some (obsWith .CNN_FEAR_GREED_INDEX 75), [], []⟩).map (·.level)
        = some .BEAR) ∧
    ((rule_sp500_pe ⟨some (obsWith .SP500_PE 25), [], []⟩).map (·.level) = some .BEAR ∧
      (rule_sp500_pe ⟨some (obsWith .SP500_PE 15), [], []⟩).map (·.level) = some .BULL) := by
  refine ⟨?_, ?_, ?_, ?_, ?_, ?_⟩
  · intro lat h30 h365
    simp only [rule_bofa_bull_bear]
    split_ifs <;> exact ⟨_, rfl, rfl, rfl⟩
  · intro lat h30 h365
    simp only [rule_cnn_fear_greed]
    split_ifs <;> exact ⟨_, rfl, rfl, rfl⟩
  · intro lat h30 h365
    simp only [rule_sp500_pe]
    split_ifs <;> exact ⟨_, rfl, rfl, rfl⟩
  · refine ⟨?_, ?_, ?_, ?_⟩ <;> norm_num [rule_bofa_bull_bear, obsWith]
  · constructor <;> norm_num [rule_cnn_fear_greed, obsWith]
  · constructor <;> norm_num [rule_sp500_pe, obsWith]

/-- C4: every fetch path of the credit-spread provider converts a raw
percent reading p into an Observation with value p * 100 and unit bp
(2.83 percent is stored as 283 bp), so stored value / 100 recovers the
raw percent exactly. -/
theorem hy_percent_to_bp_conversion :
    ∀ (p : ℚ) (d : ℤ),
      ((fred_obs_from_te (te_observation d p)).value = p * 100 ∧
        (fred_obs_from_te (te_observation d p)).unit = "bp" ∧
        (fred_obs_from_te (te_observation d p)).value / 100 = p) ∧
      ((fred_obs_from_api d p).value = p * 100 ∧
        (fred_obs_from_api d p).unit = "bp" ∧
        (fred_obs_from_api d p).value / 100 = p) ∧
      ((fred_obs_from_txt d p).value = p * 100 ∧
        (fred_obs_from_txt d p).unit = "bp" ∧
        (fred_obs_from_txt d p).value / 100 = p) ∧
      (fred_obs_from_te (te_observation 0 (283/100))).value = 283 := by
  intro p d
  have h100 : (100 : ℚ) ≠ 0 := by norm_num
  refine ⟨⟨rfl, rfl, ?_⟩, ⟨rfl, rfl, ?_⟩, ⟨rfl, rfl, ?_⟩, ?_⟩
  · exact mul_div_cancel_right₀ p h100
  · exact mul_div_cancel_right₀ p h100
  · exact mul_div_cancel_right₀ p h100
  · norm_num [fred_obs_from_te, te_observation]

/-- Auxiliary: the fetch-all fold from an arbitrary accumulator. -/
lemma fetch_all_into_db_go :
    ∀ (outcomes : List (String × Except String ℕ)) (t : ℕ) (es : List String),
      outcomes.foldl fetch_all_step (t, es) =
        (t + (fetch_all_into_db outcomes).1, es ++ (fetch_all_into_db outcomes).2) := by
  intro outcomes
  induction outcomes with
  | nil => intro t es; simp [fetch_all_into_db]
  | cons pr rest ih =>
    intro t es
    obtain ⟨name, res⟩ := pr
    cases res with
    | ok n =>
      show rest.foldl fetch_all_step (t + n, es) = _
      rw [ih (t + n) es]
      have hr : fetch_all_into_db ((name, Except.ok n) :: rest)
          = rest.foldl fetch_all_step (0 + n, []) := rfl
      rw [hr, ih (0 + n) []]
      simp [Nat.add_assoc]
    | error e =>
      show rest.foldl fetch_all_step (t, es ++ ["Skipping " ++ name ++ ": " ++ e]) = _
      rw [ih t (es ++ ["Skipping " ++ name ++ ": " ++ e])]
      have hr : fetch_all_into_db ((name, Except.error e) :: rest)
          = rest.foldl fetch_all_step (0, [] ++ ["Skipping " ++ name ++ ": " ++ e]) := rfl
      rw [hr, ih 0 ([] ++ ["Skipping " ++ name ++ ": " ++ e])]
      simp

/-- C9: a fetch-all pass is not aborted by one provider failing: the
total written-record count is the sum of the successful providers
record counts only, one failure message is recorded per failing
provider, and the pass over a sequence splits additively around any
point, so the providers after a failure still contribute. -/
theorem fetch_all_partial_failure :
    ∀ (outcomes : List (String × Except String ℕ)),
      (fetch_all_into_db outcomes).1 =
        (outcomes.filterMap (fun pr =>
          match pr.2 with | .ok n => some n | .error _ => none)).sum ∧
      (fetch_all_into_db outcomes).2.length =
        (outcomes.filter (fun pr =>
          match pr.2 with | .ok _ => false | .error _ => true)).length ∧
      ∀ (l1 l2 : List (String × Except String ℕ)),
        fetch_all_into_db (l1 ++ l2) =
          ((fetch_all_into_db l1).1 + (fetch_all_into_db l2).1,
            (fetch_all_into_db l1).2 ++ (fetch_all_into_db l2).2) := by
  have hconcat : ∀ (l1 l2 : List (String × Except String ℕ)),
      fetch_all_into_db (l1 ++ l2) =
        ((fetch_all_into_db l1).1 + (fetch_all_into_db l2).1,
          (fetch_all_into_db l1).2 ++ (fetch_all_into_db l2).2) := by
    intro l1 l2
    show (l1 ++ l2).foldl fetch_all_step (0, []) = _
    rw [List.foldl_append]
    have h1 : l1.foldl fetch_all_step (0, []) = fetch_all_into_db l1 := rfl
    rw [h1]
    have h2 := fetch_all_into_db_go l2 (fetch_all_into_db l1).1 (fetch_all_into_db l1).2
    calc l2.foldl fetch_all_step (fetch_all_into_db l1)
        = l2.foldl fetch_all_step ((fetch_all_into_db l1).1, (fetch_all_into_db l1).2) := rfl
      _ = _ := h2
  intro outcomes
  refine ⟨?_, ?_, hconcat⟩
  · induction outcomes with
    | nil => rfl
    | cons pr rest ih =>
      obtain ⟨name, res⟩ := pr
      have hc := hconcat [(name, res)] rest
      simp only [List.singleton_append] at hc
      rw [hc]
      cases res with
      | ok n => simpa [fetch_all_into_db, fetch_all_step] using ih
      | error e => simpa [fetch_all_into_db, fetch_all_step] using ih
  · induction outcomes with
    | nil => rfl
    | cons pr rest ih =>
      obtain ⟨name, res⟩ := pr
      have hc := hconcat [(name, res)] rest
      simp only [List.singleton_append] at hc
      rw [hc]
      cases res with
      | ok n => simpa [fetch_all_into_db, fetch_all_step] using ih
      | error e => simpa [fetch_all_into_db, fetch_all_step] using ih

/-- Auxiliary: on an ascending history the break-early scan returns the
last element on or before the target, falling back to the accumulator. -/
lemma valueOnOrBeforeGo_sorted (target : ℤ) :
    ∀ (l : List Observation), l.Sorted (fun a b => a.as_of ≤ b.as_of) →
      ∀ (b : Option Observation),
        valueOnOrBeforeGo target b l =
          ((l.filter (fun o => decide (o.as_of ≤ target))).getLast?).elim b some := by
  intro l
  induction l with
  | nil => intro _ b; rfl
  | cons o rest ih =>
    intro hs b
    rw [List.sorted_cons] at hs
    obtain ⟨hall, hrest⟩ := hs
    by_cases h : o.as_of ≤ target
    · have hstep : valueOnOrBeforeGo target b (o :: rest)
          = valueOnOrBeforeGo target (some o) rest := by
        simp only [valueOnOrBeforeGo, if_pos h]
      rw [hstep, ih hrest (some o),
        List.filter_cons_of_pos (by simpa using h), getLast?_cons_eq]
      cases hl : (rest.filter (fun o => decide (o.as_of ≤ target))).getLast? <;> simp
    · have hnil : (o :: rest).filter (fun x => decide (x.as_of ≤ target)) = [] := by
        rw [List.filter_eq_nil_iff]
        intro a ha
        simp only [decide_eq_true_eq]
        rcases List.mem_cons.mp ha with rfl | ha'
        · exact h
        · exact fun hle => h (le_trans (hall a ha') hle)
      rw [hnil]
      simp only [valueOnOrBeforeGo, if_neg h, List.getLast?_nil, Option.elim]

/-- Auxiliary: on an ascending history value_on_or_before is the last
filtered element on or before the target date. -/
lemma value_on_or_before_sorted (history : List Observation) (target : ℤ)
    (hs : history.Sorted (fun a b => a.as_of ≤ b.as_of)) :
    value_on_or_before history target =
      (history.filter (fun o => decide (o.as_of ≤ target))).getLast? := by
  rw [value_on_or_before, valueOnOrBeforeGo_sorted target history hs none]
  cases hl : (history.filter (fun o => decide (o.as_of ≤ target))).getLast? <;> rfl

/-- Auxiliary: delta on an ascending history. -/
lemma delta_sorted (history : List Observation) (lat : Observation) (lookback : ℤ)
    (hs : history.Sorted (fun a b => a.as_of ≤ b.as_of)) :
    delta history lat lookback =
      ((history.filter (fun o => decide (o.as_of ≤ lat.as_of - lookback))).getLast?).map
        (fun p => lat.value - p.value) := by
  rw [delta, value_on_or_before_sorted history _ hs]
  cases hl : (history.filter (fun o => decide (o.as_of ≤ lat.as_of - lookback))).getLast? <;> rfl

/-- Auxiliary: the Bool test for an available delta at least x. -/
lemma deltaGE_iff (d : Option ℚ) (x : ℚ) :
    deltaGE d x = true ↔ ∃ q, d = some q ∧ x ≤ q := by
  cases d <;> simp [deltaGE]

/-- Auxiliary: the Bool test for an available delta at most x. -/
lemma deltaLE_iff (d : Option ℚ) (x : ℚ) :
    deltaLE d x = true ↔ ∃ q, d = some q ∧ q ≤ x := by
  cases d <;> simp [deltaLE]

/-- C2: on an ascending history, the high-yield rule is BEAR when the
level is at least 500 bp or the 30-day delta is at least +100 bp, the
BEAR branch winning over BULL; otherwise BULL when the level is at most
300 bp or the delta is at most -100 bp; otherwise NEUTRAL. The 30-day
delta is the latest value minus the value of the last history
observation dated on or before latest.as_of - 30, and is unavailable
(affecting neither branch) when no such observation is in the window. -/
theorem rule_hy_spread_correct (lat : Observation) (h30 h365 : List Observation)
    (hasc : h365.Sorted (fun a b => a.as_of ≤ b.as_of)) :
    delta h365 lat 30 =
      ((h365.filter (fun o => decide (o.as_of ≤ lat.as_of - 30))).getLast?).map
        (fun p => lat.value - p.value) ∧
    ∃ a, rule_hy_spread ⟨some lat, h30, h365⟩ = some a ∧
      a.indicator_id = .US_HIGH_YIELD_SPREAD ∧
      (a.level = .BEAR ↔
        (500 ≤ lat.value ∨ ∃ q, delta h365 lat 30 = some q ∧ 100 ≤ q)) ∧
      (a.level = .BULL ↔
        (¬(500 ≤ lat.value ∨ ∃ q, delta h365 lat 30 = some q ∧ 100 ≤ q) ∧
          (lat.value ≤ 300 ∨ ∃ q, delta h365 lat 30 = some q ∧ q ≤ -100))) ∧
      (a.level = .NEUTRAL ↔
        (¬(500 ≤ lat.value ∨ ∃ q, delta h365 lat 30 = some q ∧ 100 ≤ q) ∧
          ¬(lat.value ≤ 300 ∨ ∃ q, delta h365 lat 30 = some q ∧ q ≤ -100))) := by
  refine ⟨delta_sorted h365 lat 30 hasc, ?_⟩
  have hBear : (decide (500 ≤ lat.value) || deltaGE (delta h365 lat 30) 100) = true ↔
      (500 ≤ lat.value ∨ ∃ q, delta h365 lat 30 = some q ∧ 100 ≤ q) := by
    simp [deltaGE_iff]
  have hBull : (decide (lat.value ≤ 300) || deltaLE (delta h365 lat 30) (-100)) = true ↔
      (lat.value ≤ 300 ∨ ∃ q, delta h365 lat 30 = some q ∧ q ≤ -100) := by
    simp [deltaLE_iff]
  simp only [rule_hy_spread]
  cases h1 : (decide (500 ≤ lat.value) || deltaGE (delta h365 lat 30) 100) with
  | true =>
    rw [if_pos (show (true : Bool) = true from rfl)]
    refine ⟨_, rfl, rfl, ?_, ?_, ?_⟩ <;> simp_all
  | false =>
    rw [if_neg Bool.false_ne_true]
    cases h2 : (decide (lat.value ≤ 300) || deltaLE (delta h365 lat 30) (-100)) with
    | true =>
      rw [if_pos (show (true : Bool) = true from rfl)]
      refine ⟨_, rfl, rfl, ?_, ?_, ?_⟩ <;> simp_all
    | false =>
      rw [if_neg Bool.false_ne_true]
      refine ⟨_, rfl, rfl, ?_, ?_, ?_⟩ <;> simp_all

/-- Witness for C2: latest 400 bp with a 280 bp observation exactly 30
days earlier gives delta +120 and level BEAR despite the neutral level. -/
theorem rule_hy_spread_correct_witness :
    ∃ a, rule_hy_spread ⟨some c2Lat, [], c2Hist⟩ = some a ∧ a.level = .BEAR := by
  obtain ⟨hd, a, ha, hind, hbear, hbull, hneut⟩ :=
    rule_hy_spread_correct c2Lat [] c2Hist (by simp [c2Hist, List.sorted_singleton])
  refine ⟨a, ha, hbear.mpr (Or.inr ⟨120, ?_, by norm_num⟩)⟩
  norm_num [delta, value_on_or_before, valueOnOrBeforeGo, c2Hist, c2Lat]

/-- Auxiliary: upserting past a row with a different key keeps it in place. -/
lemma upsertRow_cons_ne (x : StoredRow) (xs : Table) (r : StoredRow)
    (h : rowKey x ≠ rowKey r) :
    upsertRow (x :: xs) r = x :: upsertRow xs r := by
  simp only [upsertRow, List.any_cons,
    show (decide (rowKey x = rowKey r)) = false from decide_eq_false h, Bool.false_or]
  cases hxs : xs.any (fun y => decide (rowKey y = rowKey r)) with
  | true => simp [List.map_cons, if_neg h]
  | false => simp

/-- Auxiliary: members of an upsert result come from the table or are
the upserted row. -/
lemma mem_upsertRow {t : Table} {r y : StoredRow} (hy : y ∈ upsertRow t r) :
    y ∈ t ∨ y = r := by
  unfold upsertRow at hy
  by_cases hc : t.any (fun x => decide (rowKey x = rowKey r)) = true
  · rw [if_pos hc] at hy
    obtain ⟨x, hx, hfx⟩ := List.mem_map.mp hy
    by_cases hk : rowKey x = rowKey r
    · right; rw [← hfx, if_pos hk]
    · left; rw [← hfx, if_neg hk]; exact hx
  · rw [if_neg hc] at hy
    rcases List.mem_append.mp hy with h | h
    · exact Or.inl h
    · exact Or.inr (List.mem_singleton.mp h)

/-- Auxiliary: the one-row upsert preserves primary-key uniqueness. -/
lemma keyUnique_upsertRow (r : StoredRow) :
    ∀ (t : Table), KeyUnique t → KeyUnique (upsertRow t r) := by
  intro t
  induction t with
  | nil => intro _; simp [upsertRow, KeyUnique]
  | cons x xs ih =>
    intro h
    rw [KeyUnique, List.pairwise_cons] at h
    obtain ⟨hx, hxs⟩ := h
    by_cases hk : rowKey x = rowKey r
    · have hnone : ∀ y ∈ xs, ¬ rowKey y = rowKey r :=
        fun y hy h2 => (hx y hy) (hk.trans h2.symm)
      have hany : (x :: xs).any (fun z => decide (rowKey z = rowKey r)) = true := by
        simp [List.any_cons, hk]
      have hmapxs : xs.map (fun z => if rowKey z = rowKey r then r else z) = xs :=
        (List.map_congr_left (fun z hz => if_neg (hnone z hz))).trans (List.map_id xs)
      simp only [upsertRow]
      rw [if_pos hany, List.map_cons, if_pos hk, hmapxs, KeyUnique, List.pairwise_cons]
      exact ⟨fun y hy h2 => (hnone y hy) h2.symm, hxs⟩
    · rw [upsertRow_cons_ne x xs r hk, KeyUnique, List.pairwise_cons]
      constructor
      · intro y hy
        rcases mem_upsertRow hy with h2 | rfl
        · exact hx y h2
        · exact hk
      · exact ih hxs

/-- Auxiliary: after upserting into a key-unique table, the upserted key
holds exactly the upserted row. -/
lemma rowsWithKey_upsertRow (r : StoredRow) :
    ∀ (t : Table), KeyUnique t → rowsWithKey (upsertRow t r) (rowKey r) = [r] := by
  intro t
  induction t with
  | nil => intro _; simp [upsertRow, rowsWithKey]
  | cons x xs ih =>
    intro h
    rw [KeyUnique, List.pairwise_cons] at h
    obtain ⟨hx, hxs⟩ := h
    by_cases hk : rowKey x = rowKey r
    · have hnone : ∀ y ∈ xs, ¬ rowKey y = rowKey r :=
        fun y hy h2 => (hx y hy) (hk.trans h2.symm)
      have hany : (x :: xs).any (fun z => decide (rowKey z = rowKey r)) = true := by
        simp [List.any_cons, hk]
      have hmapxs : xs.map (fun z => if rowKey z = rowKey r then r else z) = xs :=
        (List.map_congr_left (fun z hz => if_neg (hnone z hz))).trans (List.map_id xs)
      simp only [upsertRow]
      rw [if_pos hany, List.map_cons, if_pos hk, hmapxs, rowsWithKey,
        List.filter_cons_of_pos (by simp)]
      have hni : xs.filter (fun z => decide (rowKey z = rowKey r)) = [] :=
        List.filter_eq_nil_iff.mpr (fun a ha => by simpa using hnone a ha)
      rw [hni]
    · rw [upsertRow_cons_ne x xs r hk, rowsWithKey,
        List.filter_cons_of_neg (by simpa using hk)]
      exact ih hxs

/-- Auxiliary: replacing all rows of one key does not change the rows a
key-avoiding filter selects. -/
lemma filter_map_replace (r : StoredRow) (p : StoredRow → Bool)
    (hp : ∀ x, rowKey x = rowKey r → p x = false) :
    ∀ (t : Table),
      (t.map (fun x => if rowKey x = rowKey r then r else x)).filter p = t.filter p := by
  intro t
  induction t with
  | nil => rfl
  | cons x xs ih =>
    by_cases hk : rowKey x = rowKey r
    · rw [List.map_cons, if_pos hk,
        List.filter_cons_of_neg (by simp [hp r rfl]),
        List.filter_cons_of_neg (by simp [hp x hk])]
      exact ih
    · rw [List.map_cons, if_neg hk]
      cases hpx : p x with
      | false =>
        rw [List.filter_cons_of_neg (by simp [hpx]), List.filter_cons_of_neg (by simp [hpx])]
        exact ih
      | true =>
        rw [List.filter_cons_of_pos hpx, List.filter_cons_of_pos hpx, ih]

/-- Auxiliary: a one-row upsert is invisible to any filter that rejects
every row carrying the upserted key. -/
lemma filter_upsertRow (t : Table) (r : StoredRow) (p : StoredRow → Bool)
    (hp : ∀ x, rowKey x = rowKey r → p x = false) :
    (upsertRow t r).filter p = t.filter p := by
  by_cases hc : t.any (fun x => decide (rowKey x = rowKey r)) = true
  · simp only [upsertRow]
    rw [if_pos hc]
    exact filter_map_replace r p hp t
  · simp only [upsertRow]
    rw [if_neg hc, List.filter_append]
    simp [hp r rfl]

/-- Auxiliary: re-upserting a row with the same observation content
leaves the observation columns of the table unchanged (only the
ingestion timestamp of the keyed row can differ). -/
lemma obsOf_upsertRow_upsertRow (t : Table) (r1 r2 : StoredRow) (hobs : r1.obs = r2.obs) :
    obsOf (upsertRow (upsertRow t r1) r2) = obsOf (upsertRow t r1) := by
  have hkey : rowKey r1 = rowKey r2 := by rw [rowKey, rowKey, hobs]
  by_cases hc : t.any (fun x => decide (rowKey x = rowKey r1)) = true
  · obtain ⟨w, hw, hwkey⟩ := List.any_eq_true.mp hc
    rw [decide_eq_true_eq] at hwkey
    have hu1 : upsertRow t r1 = t.map (fun x => if rowKey x = rowKey r1 then r1 else x) := by
      simp only [upsertRow]; rw [if_pos hc]
    have hc2 : (t.map (fun x => if rowKey x = rowKey r1 then r1 else x)).any
        (fun x => decide (rowKey x = rowKey r2)) = true := by
      refine List.any_eq_true.mpr ⟨r1, ?_, by simp [← hkey]⟩
      exact List.mem_map.mpr ⟨w, hw, by rw [if_pos hwkey]⟩
    have hu2 : upsertRow (t.map (fun x => if rowKey x = rowKey r1 then r1 else x)) r2
        = (t.map (fun x => if rowKey x = rowKey r1 then r1 else x)).map
            (fun x => if rowKey x = rowKey r2 then r2 else x) := by
      simp only [upsertRow]; rw [if_pos hc2]
    rw [hu1, hu2, obsOf, obsOf, List.map_map, List.map_map, List.map_map]
    apply List.map_congr_left
    intro x _
    by_cases hk : rowKey x = rowKey r1
    · simp only [Function.comp]
      rw [if_pos hk, if_pos hkey]
      exact hobs.symm
    · simp only [Function.comp, if_neg hk]
      rw [if_neg (fun h2 => hk (h2.trans hkey.symm))]
  · have hall : ∀ x ∈ t, ¬ rowKey x = rowKey r1 := by
      intro x hx hx2
      exact hc (List.any_eq_true.mpr ⟨x, hx, by simp [hx2]⟩)
    have hu1 : upsertRow t r1 = t ++ [r1] := by
      simp only [upsertRow]; rw [if_neg hc]
    have hc2 : (t ++ [r1]).any (fun x => decide (rowKey x = rowKey r2)) = true := by
      refine List.any_eq_true.mpr ⟨r1, by simp, by simp [← hkey]⟩
    have hu2 : upsertRow (t ++ [r1]) r2
        = (t ++ [r1]).map (fun x => if rowKey x = rowKey r2 then r2 else x) := by
      simp only [upsertRow]; rw [if_pos hc2]
    rw [hu1, hu2, obsOf, obsOf, List.map_map]
    apply List.map_congr_left
    intro x hx
    rcases List.mem_append.mp hx with hxt | hxr
    · simp only [Function.comp]
      rw [if_neg (fun h2 => hall x hxt (h2.trans hkey.symm))]
    · have hxr1 : x = r1 := List.mem_singleton.mp hxr
      subst hxr1
      simp only [Function.comp]
      rw [if_pos hkey]
      exact hobs.symm

/-- C1: the store holds at most one row per (indicator_id, as_of) key:
upserting the same Observation a second time leaves latest and recent
results unchanged in content, and upserting an Observation with the
same key but different content fully replaces the stored row — the key
then holds exactly the new row — while key uniqueness is preserved. -/
theorem upsert_last_write_wins (t : Table) (o o2 : Observation) (n1 n2 n3 : ℤ)
    (hu : KeyUnique t) (hk : obsKey o2 = obsKey o) :
    (∀ ind, latest_observation (upsert_observations (upsert_observations t [o] n1) [o] n2) ind
        = latest_observation (upsert_observations t [o] n1) ind) ∧
    (∀ ind today days,
      recent_observations (upsert_observations (upsert_observations t [o] n1) [o] n2) ind today days
        = recent_observations (upsert_observations t [o] n1) ind today days) ∧
    rowsWithKey
        (upsert_observations (upsert_observations (upsert_observations t [o] n1) [o] n2) [o2] n3)
        (obsKey o)
      = [⟨o2, n3⟩] ∧
    KeyUnique
      (upsert_observations (upsert_observations (upsert_observations t [o] n1) [o] n2) [o2] n3) := by
  have hup : ∀ (s : Table) (x : Observation) (n : ℤ),
      upsert_observations s [x] n = upsertRow s ⟨x, n⟩ := fun s x n => rfl
  have hobs12 : obsOf (upsertRow (upsertRow t ⟨o, n1⟩) ⟨o, n2⟩) = obsOf (upsertRow t ⟨o, n1⟩) :=
    obsOf_upsertRow_upsertRow t ⟨o, n1⟩ ⟨o, n2⟩ rfl
  have hu2 : KeyUnique (upsertRow (upsertRow t ⟨o, n1⟩) ⟨o, n2⟩) :=
    keyUnique_upsertRow _ _ (keyUnique_upsertRow _ _ hu)
  refine ⟨?_, ?_, ?_, ?_⟩
  · intro ind
    rw [hup, hup, latest_observation, latest_observation, hobs12]
  · intro ind today days
    rw [hup, hup, recent_observations, recent_observations, hobs12]
  · rw [hup, hup, hup]
    have hr := rowsWithKey_upsertRow ⟨o2, n3⟩ _ hu2
    have hkk : rowKey (⟨o2, n3⟩ : StoredRow) = obsKey o := hk
    rw [hkk] at hr
    exact hr
  · rw [hup, hup, hup]
    exact keyUnique_upsertRow _ _ hu2

/-- Witness for C1 at the empty store with two same-key observations. -/
theorem upsert_last_write_wins_witness :
    rowsWithKey
        (upsert_observations (upsert_observations (upsert_observations [] [c1O] 1) [c1O] 2)
          [c1O2] 3)
        (obsKey c1O)
      = [⟨c1O2, 3⟩] ∧
    latest_observation (upsert_observations (upsert_observations [] [c1O] 1) [c1O] 2)
        .US_HIGH_YIELD_SPREAD
      = latest_observation (upsert_observations [] [c1O] 1) .US_HIGH_YIELD_SPREAD := by
  have h := upsert_last_write_wins [] c1O c1O2 1 2 3 (List.Pairwise.nil) rfl
  exact ⟨h.2.2.1, h.1 .US_HIGH_YIELD_SPREAD⟩

/-- C5 counterexample: recent_observations has no upper cutoff — with
today = 0 and days = 35, a stored row dated day 1 (outside the interval
from today - 35 to today) is still returned. -/
theorem recent_observations_no_upper_bound :
    ∃ o ∈ recent_observations [c5Row] .US_HIGH_YIELD_SPREAD 0 35,
      ¬((0 : ℤ) - 35 ≤ o.as_of ∧ o.as_of ≤ 0) := by
  refine ⟨c5Row.obs, ?_, ?_⟩
  · show c5Row.obs ∈ recent_observations [c5Row] .US_HIGH_YIELD_SPREAD 0 35
    have hre : recent_observations [c5Row] .US_HIGH_YIELD_SPREAD 0 35 = [c5Row.obs] := rfl
    rw [hre]
    exact List.mem_singleton.mpr rfl
  · intro hcon
    have h1 : c5Row.obs.as_of = 1 := rfl
    rw [h1] at hcon
    exact absurd hcon.2 (by norm_num)

/-- C5 (amended): recent_observations returns exactly the stored rows of
the indicator with as_of at least today - days (no upper bound), in
strictly ascending date order when the store is key-unique. -/
theorem recent_observations_spec (t : Table) (ind : IndicatorId) (today days : ℤ)
    (hu : KeyUnique t) :
    (∀ o, o ∈ recent_observations t ind today days ↔
      (∃ r ∈ t, r.obs = o) ∧ o.indicator_id = ind ∧ today - days ≤ o.as_of) ∧
    (recent_observations t ind today days).Pairwise (fun a b => a.as_of < b.as_of) := by
  constructor
  · intro o
    rw [recent_observations, recentObs,
      (List.perm_insertionSort (fun a b : Observation => a.as_of ≤ b.as_of) _).mem_iff]
    simp only [List.mem_filter, obsOf, List.mem_map, Bool.and_eq_true, decide_eq_true_eq]
  · have hperm := List.perm_insertionSort (fun a b : Observation => a.as_of ≤ b.as_of)
      ((obsOf t).filter
        (fun o => decide (o.indicator_id = ind) && decide (today - days ≤ o.as_of)))
    have hsorted : (recent_observations t ind today days).Pairwise
        (fun a b : Observation => a.as_of ≤ b.as_of) :=
      List.sorted_insertionSort _ _
    have hkeyne : ((obsOf t).filter
        (fun o => decide (o.indicator_id = ind) && decide (today - days ≤ o.as_of))).Pairwise
        (fun a b : Observation => obsKey a ≠ obsKey b) := by
      apply List.Pairwise.filter
      rw [obsOf, List.pairwise_map]
      exact hu
    have hne : (recent_observations t ind today days).Pairwise
        (fun a b : Observation => obsKey a ≠ obsKey b) :=
      (hperm.pairwise_iff (fun h h2 => h h2.symm)).mpr hkeyne
    have hmemind : ∀ o ∈ recent_observations t ind today days, o.indicator_id = ind := by
      intro o ho
      rw [recent_observations, recentObs, hperm.mem_iff, List.mem_filter] at ho
      have h2 := ho.2
      rw [Bool.and_eq_true] at h2
      simpa using h2.1
    refine List.Pairwise.imp_of_mem ?_ (hsorted.and hne)
    intro a b ha hb hab
    refine lt_of_le_of_ne hab.1 ?_
    intro hasof
    apply hab.2
    rw [obsKey, obsKey, hasof, hmemind a ha, hmemind b hb]

/-- Witness for C5 at a singleton key-unique store. -/
theorem recent_observations_spec_witness :
    (c5Row.obs ∈ recent_observations [c5Row] .US_HIGH_YIELD_SPREAD 0 35 ↔
      (∃ r ∈ [c5Row], r.obs = c5Row.obs) ∧
        c5Row.obs.indicator_id = .US_HIGH_YIELD_SPREAD ∧ (0 : ℤ) - 35 ≤ c5Row.obs.as_of) ∧
    (recent_observations [c5Row] .US_HIGH_YIELD_SPREAD 0 35).Pairwise
      (fun a b => a.as_of < b.as_of) := by
  have h := recent_observations_spec [c5Row] .US_HIGH_YIELD_SPREAD 0 35
    (List.pairwise_singleton _ _)
  exact ⟨h.1 c5Row.obs, h.2⟩

/-- Auxiliary: a whole-batch upsert is invisible to any filter that
rejects every row carrying a key of the batch. -/
lemma filter_upsert_observations (p : StoredRow → Bool) :
    ∀ (batch : List Observation) (t : Table) (now : ℤ),
      (∀ o ∈ batch, ∀ x : StoredRow, rowKey x = obsKey o → p x = false) →
      (upsert_observations t batch now).filter p = t.filter p := by
  intro batch
  induction batch with
  | nil => intro t now _; rfl
  | cons o rest ih =>
    intro t now hp
    show (upsert_observations (upsertRow t ⟨o, now⟩) rest now).filter p = _
    rw [ih (upsertRow t ⟨o, now⟩) now (fun o2 h2 => hp o2 (List.mem_cons_of_mem o h2))]
    exact filter_upsertRow t ⟨o, now⟩ p (fun x hx => hp o (List.mem_cons_self o rest) x hx)

/-- Auxiliary: filtering the observation columns is filtering the rows. -/
lemma obsOf_filter (t : Table) (q : Observation → Bool) :
    (obsOf t).filter q = obsOf (t.filter (fun r => q r.obs)) := by
  rw [obsOf, obsOf, List.filter_map]
  rfl

/-- Auxiliary: a key equality between a row and an observation forces
equal indicator ids. -/
lemma rowKey_eq_ind {x : StoredRow} {o : Observation} (h : rowKey x = obsKey o) :
    x.obs.indicator_id = o.indicator_id := by
  have := congrArg Prod.fst h
  simpa [rowKey, obsKey] using this

/-- C10: upsert has no effect outside the keys of its batch: rows whose
key is not in the batch survive unchanged (timestamp included), and
latest and recent queries for an indicator not mentioned in the batch
return the same results before and after the call. -/
theorem upsert_frame_effect (t : Table) (batch : List Observation) (now : ℤ) :
    ((upsert_observations t batch now).filter
        (fun r => !decide (rowKey r ∈ batch.map obsKey)) =
      t.filter (fun r => !decide (rowKey r ∈ batch.map obsKey))) ∧
    ∀ ind, ind ∉ batch.map (fun o => o.indicator_id) →
      (latest_observation (upsert_observations t batch now) ind = latest_observation t ind ∧
        ∀ today days,
          recent_observations (upsert_observations t batch now) ind today days
            = recent_observations t ind today days) := by
  constructor
  · apply filter_upsert_observations _ batch t now
    intro o ho x hx
    have hmem : rowKey x ∈ batch.map obsKey := hx ▸ List.mem_map_of_mem obsKey ho
    simp [hmem]
  · intro ind hind
    have hqind : ∀ o2 ∈ batch, ∀ x : StoredRow, rowKey x = obsKey o2 →
        (x.obs.indicator_id = ind) = False := by
      intro o2 ho2 x hx
      have h1 : x.obs.indicator_id = o2.indicator_id := rowKey_eq_ind hx
      simp only [eq_iff_iff, iff_false]
      intro h2
      exact hind (List.mem_map.mpr ⟨o2, ho2, (h1.symm.trans h2)⟩)
    constructor
    · rw [latest_observation, latest_observation, latestObs, latestObs,
        obsOf_filter, obsOf_filter,
        filter_upsert_observations _ batch t now ?_]
      intro o2 ho2 x hx
      simp [hqind o2 ho2 x hx]
    · intro today days
      rw [recent_observations, recent_observations, recentObs, recentObs,
        obsOf_filter, obsOf_filter,
        filter_upsert_observations _ batch t now ?_]
      intro o2 ho2 x hx
      simp [hqind o2 ho2 x hx]

/-- Witness for C10: upserting a high-yield observation into a store
leaves the VIX queries and the non-batch keys unchanged. -/
theorem upsert_frame_effect_witness :
    latest_observation (upsert_observations [c5Row] [c1O] 5) .VIX
        = latest_observation [c5Row] .VIX ∧
    recent_observations (upsert_observations [c5Row] [c1O] 5) .VIX 0 35
        = recent_observations [c5Row] .VIX 0 35 := by
  have h := (upsert_frame_effect [c5Row] [c1O] 5).2 .VIX (by decide)
  exact ⟨h.1, h.2 0 35⟩

/-- Auxiliary: the bull-bear signal cannot flag top and bottom at once. -/
lemma signal_bull_bear_not_both {latest : IndicatorId → Option Observation} {s : Signal}
    (hs : s ∈ signal_bull_bear latest) : ¬(s.top = true ∧ s.bottom = true) := by
  unfold signal_bull_bear at hs
  cases h : latest .BOFA_BULL_BEAR with
  | none => rw [h] at hs; cases hs
  | some o =>
    rw [h] at hs
    rw [List.mem_singleton] at hs
    subst hs
    rintro ⟨ht, hb⟩
    simp only [decide_eq_true_eq] at ht hb
    linarith

/-- Auxiliary: the fear-greed signal cannot flag top and bottom at once. -/
lemma signal_fear_greed_not_both {latest : IndicatorId → Option Observation} {s : Signal}
    (hs : s ∈ signal_fear_greed latest) : ¬(s.top = true ∧ s.bottom = true) := by
  unfold signal_fear_greed at hs
  cases h : latest .CNN_FEAR_GREED_INDEX with
  | none => rw [h] at hs; cases hs
  | some o =>
    rw [h] at hs
    rw [List.mem_singleton] at hs
    subst hs
    rintro ⟨ht, hb⟩
    simp only [decide_eq_true_eq] at ht hb
    linarith

/-- Auxiliary: the put/call signal cannot flag top and bottom at once. -/
lemma signal_put_call_not_both {latest : IndicatorId → Option Observation} {s : Signal}
    (hs : s ∈ signal_put_call latest) : ¬(s.top = true ∧ s.bottom = true) := by
  unfold signal_put_call at hs
  cases h : latest .CNN_PUT_CALL_OPTIONS with
  | none => rw [h] at hs; cases hs
  | some o =>
    rw [h] at hs
    rw [List.mem_singleton] at hs
    subst hs
    rintro ⟨ht, hb⟩
    simp only [decide_eq_true_eq] at ht hb
    linarith

/-- Auxiliary: the VIX signal cannot flag top and bottom at once. -/
lemma signal_vix_not_both {latest : IndicatorId → Option Observation} {s : Signal}
    (hs : s ∈ signal_vix latest) : ¬(s.top = true ∧ s.bottom = true) := by
  unfold signal_vix at hs
  cases h : latest .VIX with
  | none => rw [h] at hs; cases hs
  | some o =>
    rw [h] at hs
    rw [List.mem_singleton] at hs
    subst hs
    rintro ⟨ht, hb⟩
    simp only [decide_eq_true_eq] at ht hb
    linarith

/-- Auxiliary: the RSI signal cannot flag top and bottom at once. -/
lemma signal_rsi_not_both {latest : IndicatorId → Option Observation} {s : Signal}
    (hs : s ∈ signal_rsi latest) : ¬(s.top = true ∧ s.bottom = true) := by
  unfold signal_rsi at hs
  cases h : latest .SP500_RSI with
  | none => rw [h] at hs; cases hs
  | some o =>
    rw [h] at hs
    rw [List.mem_singleton] at hs
    subst hs
    rintro ⟨ht, hb⟩
    simp only [decide_eq_true_eq] at ht hb
    linarith

/-- Auxiliary: the Nasdaq P/E signal cannot flag top and bottom at once. -/
lemma signal_nasdaq_pe_not_both {latest : IndicatorId → Option Observation} {s : Signal}
    (hs : s ∈ signal_nasdaq_pe latest) : ¬(s.top = true ∧ s.bottom = true) := by
  unfold signal_nasdaq_pe at hs
  cases h : latest .NASDAQ100_PE with
  | none => rw [h] at hs; cases hs
  | some o =>
    rw [h] at hs
    rw [List.mem_singleton] at hs
    subst hs
    rintro ⟨ht, hb⟩
    simp only [decide_eq_true_eq] at ht hb
    linarith

/-- Auxiliary: the breadth signal cannot flag top and bottom at once. -/
lemma signal_breadth_not_both {latest : IndicatorId → Option Observation} {s : Signal}
    (hs : s ∈ signal_breadth latest) : ¬(s.top = true ∧ s.bottom = true) := by
  unfold signal_breadth at hs
  cases h : latest .NASDAQ100_ABOVE_20D_MA with
  | none => rw [h] at hs; cases hs
  | some o =>
    rw [h] at hs
    rw [List.mem_singleton] at hs
    subst hs
    rintro ⟨ht, hb⟩
    simp only [decide_eq_true_eq] at ht hb
    linarith

/-- Auxiliary: the HY OAS signal cannot flag top and bottom at once
(both thresholds compare the same normalized bp value). -/
lemma signal_hy_not_both {latest : IndicatorId → Option Observation} {s : Signal}
    (hs : s ∈ signal_hy latest) : ¬(s.top = true ∧ s.bottom = true) := by
  unfold signal_hy at hs
  cases h : latest .US_HIGH_YIELD_SPREAD with
  | none => rw [h] at hs; cases hs
  | some o =>
    rw [h] at hs
    rw [List.mem_singleton] at hs
    subst hs
    rintro ⟨ht, hb⟩
    simp only [decide_eq_true_eq] at ht hb
    linarith

/-- Auxiliary: any P/E signal carries the S&P 500 P/E indicator id. -/
lemma signal_sp500_pe_ind {latest : IndicatorId → Option Observation} {pct : Option ℚ}
    {s : Signal} (hs : s ∈ signal_sp500_pe latest pct) : s.indicator_id = .SP500_PE := by
  unfold signal_sp500_pe at hs
  cases h : latest .SP500_PE with
  | none => rw [h] at hs; cases hs
  | some o =>
    rw [h] at hs
    rw [List.mem_singleton] at hs
    subst hs
    rfl

/-- Auxiliary: without a percentile the P/E signal cannot flag top and
bottom at once. -/
lemma signal_sp500_pe_none_not_both {latest : IndicatorId → Option Observation} {s : Signal}
    (hs : s ∈ signal_sp500_pe latest none) : ¬(s.top = true ∧ s.bottom = true) := by
  unfold signal_sp500_pe at hs
  cases h : latest .SP500_PE with
  | none => rw [h] at hs; cases hs
  | some o =>
    rw [h] at hs
    rw [List.mem_singleton] at hs
    subst hs
    rintro ⟨ht, hb⟩
    simp only [Bool.or_false, decide_eq_true_eq] at ht hb
    linarith

/-- C6 counterexample: with the S&P 500 P/E at 20 and a supplied
historical percentile of 1, the signal engine emits a Signal with top
and bottom both true (percentile >= 0.9 makes top true while
value <= 22 makes bottom true). -/
theorem compute_signals_top_and_bottom_together :
    ∃ s ∈ compute_signals c6Latest (some 1), s.top = true ∧ s.bottom = true := by
  have hblocks : compute_signals c6Latest (some 1) = signal_sp500_pe c6Latest (some 1) := by
    simp [compute_signals, signal_bull_bear, signal_fear_greed, signal_put_call, signal_vix,
      signal_rsi, signal_nasdaq_pe, signal_breadth, signal_hy, c6Latest]
  rw [hblocks]
  simp only [signal_sp500_pe, c6Latest]
  refine ⟨_, List.mem_singleton.mpr rfl, ?_, ?_⟩
  · simp only [obsWith, Bool.or_eq_true, decide_eq_true_eq]
    norm_num
  · simp only [obsWith, Bool.or_eq_true, decide_eq_true_eq]
    norm_num

/-- C6 (amended): no signal of an indicator other than the S&P 500 P/E
ever has top and bottom both true, and with no supplied percentile the
P/E signal cannot either; only the P/E signal with a supplied
percentile can have both (see the counterexample). -/
theorem compute_signals_top_bottom_exclusive (latest : IndicatorId → Option Observation)
    (pe_percentile : Option ℚ) :
    (∀ s ∈ compute_signals latest pe_percentile,
      s.indicator_id ≠ .SP500_PE → ¬(s.top = true ∧ s.bottom = true)) ∧
    (pe_percentile = none →
      ∀ s ∈ compute_signals latest pe_percentile, ¬(s.top = true ∧ s.bottom = true)) := by
  have hcases : ∀ s ∈ compute_signals latest pe_percentile,
      s ∈ signal_bull_bear latest ∨ s ∈ signal_fear_greed latest ∨
      s ∈ signal_put_call latest ∨ s ∈ signal_vix latest ∨ s ∈ signal_rsi latest ∨
      s ∈ signal_sp500_pe latest pe_percentile ∨ s ∈ signal_nasdaq_pe latest ∨
      s ∈ signal_breadth latest ∨ s ∈ signal_hy latest := by
    intro s hs
    simpa [compute_signals, List.mem_append, or_assoc] using hs
  constructor
  · intro s hs hind
    rcases hcases s hs with h | h | h | h | h | h | h | h | h
    · exact signal_bull_bear_not_both h
    · exact signal_fear_greed_not_both h
    · exact signal_put_call_not_both h
    · exact signal_vix_not_both h
    · exact signal_rsi_not_both h
    · exact absurd (signal_sp500_pe_ind h) hind
    · exact signal_nasdaq_pe_not_both h
    · exact signal_breadth_not_both h
    · exact signal_hy_not_both h
  · rintro rfl s hs
    rcases hcases s hs with h | h | h | h | h | h | h | h | h
    · exact signal_bull_bear_not_both h
    · exact signal_fear_greed_not_both h
    · exact signal_put_call_not_both h
    · exact signal_vix_not_both h
    · exact signal_rsi_not_both h
    · exact signal_sp500_pe_none_not_both h
    · exact signal_nasdaq_pe_not_both h
    · exact signal_breadth_not_both h
    · exact signal_hy_not_both h

/-- Witness for C6 at a VIX-only latest map with no percentile. -/
theorem compute_signals_top_bottom_exclusive_witness :
    ¬(((compute_signals c6VLatest none).getD 0 sigDefault).top = true ∧
      ((compute_signals c6VLatest none).getD 0 sigDefault).bottom = true) := by
  refine (compute_signals_top_bottom_exclusive c6VLatest none).2 rfl _ ?_
  have hblocks : compute_signals c6VLatest none = signal_vix c6VLatest := by
    simp [compute_signals, signal_bull_bear, signal_fear_greed, signal_put_call, signal_vix,
      signal_rsi, signal_sp500_pe, signal_nasdaq_pe, signal_breadth, signal_hy, c6VLatest]
  rw [hblocks]
  simp [signal_vix, c6VLatest]

/-- C7 counterexample: the multpl S&P 500 P/E provider applies no range
validation: an extracted value of 500 (outside the P/E-like range
[5, 200]) is returned as an Observation by the fetch path. -/
theorem multpl_returns_out_of_range_value :
    (multpl_fetch [.SP500_PE] (multpl_sp500_pe_observation 0 500 none)).2
        = [multpl_sp500_pe_observation 0 500 none] ∧
    (multpl_sp500_pe_observation 0 500 none).value = 500 ∧
    ¬(5 ≤ (multpl_sp500_pe_observation 0 500 none).value ∧
      (multpl_sp500_pe_observation 0 500 none).value ≤ 200) := by
  refine ⟨?_, rfl, ?_⟩
  · simp [multpl_fetch]
  · rw [not_and]
    intro _
    norm_num [multpl_sp500_pe_observation]

/-- C7 (amended): the RSI provider validates every extracted candidate
against [0, 100] and treats an out-of-range candidate as a parse
failure (it moves on to the next pattern), and the Nasdaq 100 P/E
extraction gate enforces [5, 200]; the multpl S&P 500 P/E provider,
however, performs no range validation and returns whatever numeric
value it parsed. -/
theorem provider_plausibility_checks :
    (∀ (cands : List (Option ℚ)) (v : ℚ),
      parse_rsi_accept cands = some v → 0 ≤ v ∧ v ≤ 100) ∧
    (∀ (v w : ℚ), nasdaq_pe_gate v = some w → (5 ≤ w ∧ w ≤ 200) ∧ w = v) ∧
    (∀ (today : ℤ) (v : ℚ) (rep : Option String),
      (multpl_sp500_pe_observation today v rep).value = v) := by
  refine ⟨?_, ?_, ?_⟩
  · intro cands
    induction cands with
    | nil => intro v h; cases h
    | cons c rest ih =>
      intro v h
      cases c with
      | none => exact ih v h
      | some w =>
        by_cases hw : 0 ≤ w ∧ w ≤ 100
        · rw [parse_rsi_accept, if_pos hw] at h
          cases h
          exact hw
        · rw [parse_rsi_accept, if_neg hw] at h
          exact ih v h
  · intro v w h
    by_cases hv : 5 ≤ v ∧ v ≤ 200
    · rw [nasdaq_pe_gate, if_pos hv] at h
      cases h
      exact ⟨hv, rfl⟩
    · rw [nasdaq_pe_gate, if_neg hv] at h
      cases h
  · intro today v rep
    rfl

/-- Witness for C7: the RSI parse accepts 50 (in range) and the Nasdaq
gate accepts 30 (in range). -/
theorem provider_plausibility_checks_witness :
    ((0 : ℚ) ≤ 50 ∧ (50 : ℚ) ≤ 100) ∧ ((5 : ℚ) ≤ 30 ∧ (30 : ℚ) ≤ 200) := by
  have h := provider_plausibility_checks
  constructor
  · exact h.1 [some 50] 50 (by norm_num [parse_rsi_accept])
  · exact (h.2.1 30 30 (by norm_num [nasdaq_pe_gate])).1

/-- C8 counterexample: for the empty requested collection — in which
none of the provider's supported indicators appear — the provider does
not return empty: the guard only fires on a nonempty list, so the fetch
performs network I/O and returns the fetched observation (the web
auto-refresh path relies on this by calling the multpl fetch with an
empty list). -/
theorem fetch_empty_request_still_fetches :
    (te_fetch [] c8NetObs).1 = true ∧ (te_fetch [] c8NetObs).2 = [c8NetObs] ∧
    (multpl_fetch [] c8NetObs).1 = true ∧ (multpl_fetch [] c8NetObs).2 = [c8NetObs] := by
  refine ⟨?_, ?_, ?_, ?_⟩ <;> simp [te_fetch, multpl_fetch]

/-- C8 (amended): for every nonempty requested collection that contains
none of the provider's supported indicators, fetch returns an empty
list without performing network I/O; the empty collection instead
triggers an unconditional fetch. -/
theorem fetch_guard_no_network (requested : List IndicatorId) (netObs : Observation) :
    (requested ≠ [] → .US_HIGH_YIELD_SPREAD ∉ requested →
      te_fetch requested netObs = (false, [])) ∧
    (requested ≠ [] → .SP500_PE ∉ requested →
      multpl_fetch requested netObs = (false, [])) ∧
    te_fetch [] netObs = (true, [netObs]) ∧
    multpl_fetch [] netObs = (true, [netObs]) := by
  refine ⟨?_, ?_, ?_, ?_⟩
  · intro h1 h2
    rw [te_fetch, if_pos ⟨h1, h2⟩]
  · intro h1 h2
    rw [multpl_fetch, if_pos ⟨h1, h2⟩]
  · simp [te_fetch]
  · simp [multpl_fetch]

/-- Witness for C8 at the request collection containing only the VIX. -/
theorem fetch_guard_no_network_witness :
    te_fetch [.VIX] c8NetObs = (false, []) ∧
    multpl_fetch [.VIX] c8NetObs = (false, []) := by
  have h := fetch_guard_no_network [.VIX] c8NetObs
  exact ⟨h.1 (by simp) (by decide), h.2.1 (by simp) (by decide)⟩

end TraderAlerts
